import Mathlib

/-!
Verification development for the satellite telemetry acquisition-and-persistence
pipeline (two near-duplicate script variants, `satlen.py` and `satyo.py`).

The embedding has two layers.

Layer 1 (bit level) models the binary wire format of
`QuantumSignalProcessor.encode_binary_packet` (satlen.py lines 43-50), namely
CPython `struct.pack("!Iffffd", ...)`: a byte is a `Nat` below 256, a record is
a `List Nat`, a Python float is carried as its IEEE-754 binary64 bit pattern
(a `Nat` below 2^64).  The `f` conversion of `struct` narrows binary64 to
binary32 with round-to-nearest-even; that narrowing and the exact widening back
are implemented on bit patterns.

Layer 2 (pipeline level) models the producer/consumer pipeline: samples carry
rational (`ℚ`) field values, the bounded bus is the `queue.Queue` discipline,
the ghost vault is a map from names to point lists, and the harvester/storage
loops are explicit recursive functions over iteration schedules.  At this layer
a binary packet is recorded as the tuple of arguments handed to the encoder
(`PacketArgs`), so that claims about which values reach the packet can be
stated without mixing the two layers.
-/

namespace SatPipeline

/-! ## Layer 1: the binary wire format of struct.pack("!Iffffd", ...) -/

/-- Big-endian 4-byte serialisation of a 32-bit word, as struct format `!I`
or the payload of `!f` lays it out. -/
def be4 (v : Nat) : List Nat :=
  [v / 2 ^ 24 % 256, v / 2 ^ 16 % 256, v / 2 ^ 8 % 256, v % 256]

/-- Big-endian 8-byte serialisation of a 64-bit word, as struct format `!d`
lays out the binary64 bit pattern. -/
def be8 (v : Nat) : List Nat :=
  [v / 2 ^ 56 % 256, v / 2 ^ 48 % 256, v / 2 ^ 40 % 256, v / 2 ^ 32 % 256,
   v / 2 ^ 24 % 256, v / 2 ^ 16 % 256, v / 2 ^ 8 % 256, v % 256]

/-- Read a big-endian byte sequence back as an unsigned integer. -/
def fromBE (bs : List Nat) : Nat :=
  bs.foldl (fun a b => a * 256 + b) 0

theorem fromBE_be4 (v : Nat) : fromBE (be4 v) = v % 2 ^ 32 := by
  simp only [fromBE, be4, List.foldl]
  omega

theorem fromBE_be8 (v : Nat) : fromBE (be8 v) = v % 2 ^ 64 := by
  simp only [fromBE, be8, List.foldl]
  omega

/-- Bit length of a natural number, with an explicit fuel bound (64 suffices
for every significand that occurs: doubles have at most 53 significand bits).
Structural recursion on the fuel keeps the function kernel-reducible. -/
def bitLen : Nat → Nat → Nat
  | 0, _ => 0
  | fuel + 1, n => if n = 0 then 0 else bitLen fuel (n / 2) + 1

/-- Round `m / 2 ^ k` to the nearest integer, ties to even. -/
def roundEven (m k : Nat) : Nat :=
  if k = 0 then m
  else
    let q := m / 2 ^ k
    let r := m % 2 ^ k
    let half := 2 ^ (k - 1)
    if half < r ∨ (r = half ∧ q % 2 = 1) then q + 1 else q

/-- Assemble a binary32 bit pattern from sign, exponent field and fraction
field; each field is masked to its width as bit-field packing does. -/
def mkF32 (s ef fr : Nat) : Nat :=
  s % 2 * 2 ^ 31 + ef % 2 ^ 8 * 2 ^ 23 + fr % 2 ^ 23

/-- Assemble a binary64 bit pattern from sign, exponent field and fraction
field, masked to their widths. -/
def mkF64 (s ef fr : Nat) : Nat :=
  s % 2 * 2 ^ 63 + ef % 2 ^ 11 * 2 ^ 52 + fr % 2 ^ 52

/-- Exponent and fraction fields of the binary32 nearest to the binary64
magnitude with exponent field `e` and fraction field `f` (round to nearest,
ties to even; overflow to infinity; NaN kept NaN with the quiet bit set). -/
def f32magnitude (e f : Nat) : Nat × Nat :=
  if e = 2047 then
    (255, if f = 0 then 0 else Nat.lor (2 ^ 22) (f / 2 ^ 29))
  else
    let m : Nat := if e = 0 then f else 2 ^ 52 + f
    if m = 0 then (0, 0)
    else
      let E : Int := (if e = 0 then 1 else (e : Int)) - 1075
      let len : Nat := bitLen 64 m
      let g : Int := max (E + len - 24) (-149)
      let sh : Int := E - g
      let M : Nat := if 0 ≤ sh then m * 2 ^ sh.toNat else roundEven m (-sh).toNat
      let M2 : Nat := if 2 ^ 24 ≤ M then M / 2 else M
      let g2 : Int := if 2 ^ 24 ≤ M then g + 1 else g
      if 255 ≤ g2 + 150 then (255, 0)
      else if 2 ^ 23 ≤ M2 then ((g2 + 150).toNat, M2 - 2 ^ 23)
      else (0, M2)

/-- Narrow a binary64 bit pattern to the binary32 bit pattern that CPython
struct format `f` stores (round to nearest, ties to even). -/
def f64ToF32bits (b : Nat) : Nat :=
  mkF32 (b / 2 ^ 63)
    (f32magnitude (b / 2 ^ 52 % 2 ^ 11) (b % 2 ^ 52)).fst
    (f32magnitude (b / 2 ^ 52 % 2 ^ 11) (b % 2 ^ 52)).snd

theorem f64ToF32bits_lt (b : Nat) : f64ToF32bits b < 2 ^ 32 := by
  unfold f64ToF32bits mkF32
  omega

/-- Exponent and fraction fields of the binary64 denoting exactly the binary32
value with exponent field `e` and fraction field `f` (widening is exact). -/
def f64magOfF32 (e f : Nat) : Nat × Nat :=
  if e = 255 then (2047, if f = 0 then 0 else f * 2 ^ 29)
  else if e = 0 then
    if f = 0 then (0, 0)
    else
      let len : Nat := bitLen 64 f
      (len + 873, f * 2 ^ (53 - len) - 2 ^ 52)
  else (e + 896, f * 2 ^ 29)

/-- Widen a binary32 bit pattern to the binary64 bit pattern of the same
value, as reading a struct `f` field back into a Python float does. -/
def f32ToF64bits (b : Nat) : Nat :=
  mkF64 (b / 2 ^ 31)
    (f64magOfF32 (b / 2 ^ 23 % 2 ^ 8) (b % 2 ^ 23)).fst
    (f64magOfF32 (b / 2 ^ 23 % 2 ^ 8) (b % 2 ^ 23)).snd

/-- The float32 value a float64 passes through when stored in a packet:
narrow to binary32, widen back, all on bit patterns. -/
def roundF32 (b : Nat) : Nat :=
  f32ToF64bits (f64ToF32bits b)

/-- QuantumSignalProcessor.encode_binary_packet (satlen.py lines 43-50):
struct.pack("!Iffffd", sat_id, lat, lon, alt, doppler, timestamp).  The float
arguments are binary64 bit patterns; struct narrows the four `f` fields to
binary32 and raises on an out-of-range `I` argument, modelled by `none`. -/
def encode_binary_packet (sat_id lat lon alt doppler ts : Nat) :
    Option (List Nat) :=
  if sat_id < 2 ^ 32 then
    some (be4 sat_id ++ be4 (f64ToF32bits lat) ++ be4 (f64ToF32bits lon) ++
          be4 (f64ToF32bits alt) ++ be4 (f64ToF32bits doppler) ++ be8 ts)
  else none

/-- A decoded record: identifier, the four float32 fields widened back to
binary64 bit patterns, and the binary64 timestamp bit pattern. -/
structure BinRecord where
  identifier : Nat
  lat : Nat
  lon : Nat
  alt : Nat
  doppler : Nat
  timestamp : Nat
  deriving Repr, DecidableEq

/-- Modelled from the spec: no decode routine exists in the source files; the
spec (section 4.1) defines `decode(bytes)` as the inverse of `encode`, failing
with MalformedRecordError when the input is not exactly 28 bytes, which the
`none` result models.  It is struct.unpack("!Iffffd", bytes): big-endian
fields in the fixed order, the four `f` fields widened back to binary64. -/
def decode_binary_packet (bs : List Nat) : Option BinRecord :=
  if bs.length = 28 then
    some { identifier := fromBE (bs.take 4)
           lat := f32ToF64bits (fromBE ((bs.drop 4).take 4))
           lon := f32ToF64bits (fromBE ((bs.drop 8).take 4))
           alt := f32ToF64bits (fromBE ((bs.drop 12).take 4))
           doppler := f32ToF64bits (fromBE ((bs.drop 16).take 4))
           timestamp := fromBE (bs.drop 20) }
  else none

theorem encode_some_of_lt (sat_id lat lon alt doppler ts : Nat)
    (h : sat_id < 2 ^ 32) :
    encode_binary_packet sat_id lat lon alt doppler ts =
      some (be4 sat_id ++ be4 (f64ToF32bits lat) ++ be4 (f64ToF32bits lon) ++
            be4 (f64ToF32bits alt) ++ be4 (f64ToF32bits doppler) ++ be8 ts) := by
  unfold encode_binary_packet
  rw [if_pos h]

/-- C3: every record produced by encode_binary_packet is exactly 28 bytes,
laid out big-endian in the fixed field order: identifier as uint32 in bytes
0-3, then latitude, longitude, altitude and doppler as float32 in bytes 4-7,
8-11, 12-15, 16-19, then the timestamp as float64 in bytes 20-27.  Reading
each slice back big-endian recovers exactly the field value stored. -/
theorem encode_binary_packet_layout (sat_id lat lon alt doppler ts : Nat)
    (r : List Nat) (hts : ts < 2 ^ 64)
    (henc : encode_binary_packet sat_id lat lon alt doppler ts = some r) :
    r.length = 28 ∧
    fromBE (r.take 4) = sat_id ∧
    fromBE ((r.drop 4).take 4) = f64ToF32bits lat ∧
    fromBE ((r.drop 8).take 4) = f64ToF32bits lon ∧
    fromBE ((r.drop 12).take 4) = f64ToF32bits alt ∧
    fromBE ((r.drop 16).take 4) = f64ToF32bits doppler ∧
    fromBE (r.drop 20) = ts := by
  by_cases h : sat_id < 2 ^ 32
  · rw [encode_some_of_lt _ _ _ _ _ _ h] at henc
    obtain rfl : _ = r := Option.some.inj henc
    have b1 := f64ToF32bits_lt lat
    have b2 := f64ToF32bits_lt lon
    have b3 := f64ToF32bits_lt alt
    have b4 := f64ToF32bits_lt doppler
    refine ⟨by simp [be4, be8], ?_, ?_, ?_, ?_, ?_, ?_⟩ <;>
      (simp [be4, be8, fromBE]; omega)
  · unfold encode_binary_packet at henc
    rw [if_neg h] at henc
    exact Option.noConfusion henc

/-- Closed instance of the layout theorem: satellite 25544 with latitude
bits of 1.5, longitude bits of -2.0, remaining floats zero, and a concrete
timestamp bit pattern. -/
theorem encode_binary_packet_layout_witness :
    ([0, 0, 99, 200, 63, 192, 0, 0, 192, 0, 0, 0, 0, 0, 0, 0, 0, 0, 0, 0,
      65, 208, 0, 0, 0, 0, 0, 0] : List Nat).length = 28 ∧
    fromBE (([0, 0, 99, 200, 63, 192, 0, 0, 192, 0, 0, 0, 0, 0, 0, 0,
      0, 0, 0, 0, 65, 208, 0, 0, 0, 0, 0, 0] : List Nat).take 4) = 25544 ∧
    fromBE ((([0, 0, 99, 200, 63, 192, 0, 0, 192, 0, 0, 0, 0, 0, 0, 0,
      0, 0, 0, 0, 65, 208, 0, 0, 0, 0, 0, 0] : List Nat).drop 4).take 4) =
      f64ToF32bits 0x3FF8000000000000 ∧
    fromBE ((([0, 0, 99, 200, 63, 192, 0, 0, 192, 0, 0, 0, 0, 0, 0, 0,
      0, 0, 0, 0, 65, 208, 0, 0, 0, 0, 0, 0] : List Nat).drop 8).take 4) =
      f64ToF32bits 0xC000000000000000 ∧
    fromBE ((([0, 0, 99, 200, 63, 192, 0, 0, 192, 0, 0, 0, 0, 0, 0, 0,
      0, 0, 0, 0, 65, 208, 0, 0, 0, 0, 0, 0] : List Nat).drop 12).take 4) =
      f64ToF32bits 0 ∧
    fromBE ((([0, 0, 99, 200, 63, 192, 0, 0, 192, 0, 0, 0, 0, 0, 0, 0,
      0, 0, 0, 0, 65, 208, 0, 0, 0, 0, 0, 0] : List Nat).drop 16).take 4) =
      f64ToF32bits 0 ∧
    fromBE (([0, 0, 99, 200, 63, 192, 0, 0, 192, 0, 0, 0, 0, 0, 0, 0,
      0, 0, 0, 0, 65, 208, 0, 0, 0, 0, 0, 0] : List Nat).drop 20) =
      0x41D0000000000000 :=
  encode_binary_packet_layout 25544 0x3FF8000000000000 0xC000000000000000
    0 0 0x41D0000000000000
    [0, 0, 99, 200, 63, 192, 0, 0, 192, 0, 0, 0, 0, 0, 0, 0, 0, 0, 0, 0,
     65, 208, 0, 0, 0, 0, 0, 0] (by decide) (by decide)

/-- C4: decoding an encoded packet recovers the identifier and the timestamp
bit pattern exactly, and each float field as the float32 rounding of the
source float64 (narrow with round-to-nearest-even, widen back): the decoded
floating fields equal the source values to within float32 rounding, and the
loss is exactly the documented binary32 rounding, no more. -/
theorem decode_encode_roundtrip (sat_id lat lon alt doppler ts : Nat)
    (hid : sat_id < 2 ^ 32) (hts : ts < 2 ^ 64) :
    (encode_binary_packet sat_id lat lon alt doppler ts).bind
        decode_binary_packet =
      some { identifier := sat_id, lat := roundF32 lat, lon := roundF32 lon,
             alt := roundF32 alt, doppler := roundF32 doppler,
             timestamp := ts } := by
  rw [encode_some_of_lt _ _ _ _ _ _ hid]
  have b1 := f64ToF32bits_lt lat
  have b2 := f64ToF32bits_lt lon
  have b3 := f64ToF32bits_lt alt
  have b4 := f64ToF32bits_lt doppler
  simp only [Option.some_bind]
  unfold decode_binary_packet roundF32
  rw [if_pos (by simp [be4, be8])]
  simp only [Option.some.injEq, BinRecord.mk.injEq]
  refine ⟨by simp [be4, be8, fromBE]; omega,
    congrArg f32ToF64bits (by simp [be4, be8, fromBE]; omega),
    congrArg f32ToF64bits (by simp [be4, be8, fromBE]; omega),
    congrArg f32ToF64bits (by simp [be4, be8, fromBE]; omega),
    congrArg f32ToF64bits (by simp [be4, be8, fromBE]; omega),
    by simp [be4, be8, fromBE]; omega⟩

/-- Closed instance of the round-trip law at satellite 25544 with the bit
patterns of 1.5, 0.1, -2.0, 0.0 and a concrete timestamp. -/
theorem decode_encode_roundtrip_witness :
    (encode_binary_packet 25544 0x3FF8000000000000 0x3FB999999999999A
        0xC000000000000000 0 0x41D0000000000000).bind decode_binary_packet =
      some { identifier := 25544,
             lat := roundF32 0x3FF8000000000000,
             lon := roundF32 0x3FB999999999999A,
             alt := roundF32 0xC000000000000000,
             doppler := roundF32 0,
             timestamp := 0x41D0000000000000 } :=
  decode_encode_roundtrip 25544 0x3FF8000000000000 0x3FB999999999999A
    0xC000000000000000 0 0x41D0000000000000 (by decide) (by decide)

/-! ## Layer 2: the pipeline model -/

/-- A tracked object as loaded from the catalog: display name and NORAD
catalog number (sat.name and sat.model.satnum in both scripts). -/
structure TrackedObj where
  name : String
  satnum : Nat
  deriving Repr, DecidableEq

/-- Geodetic position and relative motion returned by the ephemeris
collaborator (skyfield) for one object at one instant: subpoint latitude
and longitude in degrees, elevation in km, range to the ground station in
km and range rate in km/s.  Real-valued quantities are carried as ℚ. -/
structure EphData where
  lat : ℚ
  lon : ℚ
  alt : ℚ
  range : ℚ
  rangeRate : ℚ
  deriving Repr, DecidableEq

/-- The argument tuple handed to struct.pack for one sample: at the pipeline
layer a binary packet is identified by the values packed into it (layer 1
fixes how such a tuple becomes 28 bytes). -/
structure PacketArgs where
  sat_id : Nat
  lat : ℚ
  lon : ℚ
  alt : ℚ
  doppler : ℚ
  ts : ℚ
  deriving Repr, DecidableEq

/-- BASE_FREQ_GHZ = 12.450 (satlen.py line 24). -/
def BASE_FREQ_GHZ : ℚ := 1245 / 100

/-- LIGHT_SPEED = 299792.458 km/s (satlen.py line 25). -/
def LIGHT_SPEED : ℚ := 299792458 / 1000

/-- QuantumSignalProcessor.calculate_path_loss (satlen.py lines 38-41).
The real-valued math.log10 is an external library routine; the model takes
it as a function parameter. -/
def calculate_path_loss (log10 : ℚ → ℚ) (distance_km frequency_ghz : ℚ) : ℚ :=
  if distance_km = 0 then 0
  else 20 * log10 distance_km + 20 * log10 frequency_ghz + 9245 / 100

/-- The telemetry dictionary SatelliteKernel.perform_handshake builds
(satlen.py lines 88-101); coords is split into lat and lon fields. -/
structure Sample where
  node_name : String
  node_id : Nat
  lat : ℚ
  lon : ℚ
  altitude : ℚ
  range : ℚ
  doppler : ℚ
  snr : ℚ
  status : String
  binary_blob : PacketArgs
  deriving Repr, DecidableEq

/-- The body of SatelliteKernel.perform_handshake (satlen.py lines 68-101)
once the ephemeris collaborator has answered: doppler, path loss, SNR,
status classification, and the binary blob holding the same doppler. -/
def handshake_sample (log10 : ℚ → ℚ) (o : TrackedObj) (e : EphData)
    (ts : ℚ) : Sample :=
  let doppler_shift := e.rangeRate / LIGHT_SPEED * BASE_FREQ_GHZ
  let path_loss := calculate_path_loss log10 e.range BASE_FREQ_GHZ
  let snr := 100 - path_loss / 2
  { node_name := o.name
    node_id := o.satnum
    lat := e.lat
    lon := e.lon
    altitude := e.alt
    range := e.range
    doppler := doppler_shift
    snr := snr
    status := if snr > 15 then "ACTIVE" else "DEGRADED"
    binary_blob := ⟨o.satnum, e.lat, e.lon, e.alt, doppler_shift, ts⟩ }

/-- SatelliteKernel.perform_handshake: the ephemeris call sat.at(now) may
raise, and no handler exists inside the function, so the failure
propagates to the caller. -/
def perform_handshake (log10 : ℚ → ℚ)
    (ephF : TrackedObj → Except String EphData) (o : TrackedObj) (ts : ℚ) :
    Except String Sample :=
  match ephF o with
  | .error msg => .error msg
  | .ok e => .ok (handshake_sample log10 o e ts)

/-- One pass of the for-loop of SatelliteKernel.tracking_loop (satlen.py
lines 106-110): each handshake result is pushed onto the bus as it is
computed; there is no try/except, so an exception aborts the loop at that
object.  Returns the samples pushed and the propagated error, if any. -/
def tracking_cycle (log10 : ℚ → ℚ)
    (ephF : TrackedObj → Except String EphData) (ts : ℚ) :
    List TrackedObj → List Sample × Option String
  | [] => ([], none)
  | o :: rest =>
    match perform_handshake log10 ephF o ts with
    | .error msg => ([], some msg)
    | .ok s =>
      let (ss, err) := tracking_cycle log10 ephF ts rest
      (s :: ss, err)

/-- A line of the anomaly/recovery log (satlen.py line 141): the written
text names the node identifier and its SNR.  The wall-clock stamp that
datetime.now() prepends is outside the model. -/
structure WarnLine where
  node_id : Nat
  snr : ℚ
  deriving Repr, DecidableEq

/-- The three sinks of storage_subsystem: binary log, structured log,
anomaly/recovery log, each as the list of records appended so far. -/
structure SinkState where
  binary : List PacketArgs
  jsonl : List Sample
  recovery : List WarnLine
  deriving Repr, DecidableEq

/-- The per-item body of storage_subsystem (satlen.py lines 127-143):
append the binary blob to the binary log, the record to the structured log,
and a warning line naming the node and its SNR exactly when snr < 20. -/
def storage_item (out : SinkState) (s : Sample) : SinkState :=
  { binary := out.binary ++ [s.binary_blob]
    jsonl := out.jsonl ++ [s]
    recovery := out.recovery ++
      (if s.snr < 20 then [⟨s.node_id, s.snr⟩] else []) }

/-- The consumer loop of storage_subsystem (satlen.py lines 125-145).
shutdownAt is the iteration at which system_event.is_set() first returns
true.  The loop checks the event before each pop, pops one queued item per
iteration while items remain (a timeout on an empty queue just loops), and
exits as soon as the event is set, whether or not items remain queued. -/
def storage_subsystem_run (shutdownAt : Nat) (queue : List Sample)
    (out : SinkState) : SinkState :=
  match shutdownAt, queue with
  | 0, _ => out
  | t + 1, [] => storage_subsystem_run t [] out
  | t + 1, s :: rest => storage_subsystem_run t rest (storage_item out s)

/-- The discipline of Python queue.Queue: maxsize 0 means unbounded; a put
on a full bounded queue blocks, modelled as none. -/
structure PyQueue (α : Type) where
  maxsize : Nat
  items : List α
  deriving Repr

/-- queue.Queue.put: blocks (none) when the queue is bounded and full,
otherwise appends at the tail. -/
def PyQueue.put {α : Type} (q : PyQueue α) (x : α) : Option (PyQueue α) :=
  if q.maxsize ≠ 0 ∧ q.maxsize ≤ q.items.length then none
  else some { q with items := q.items ++ [x] }

/-- queue.Queue.get: none when empty (the timeout path), else the head. -/
def PyQueue.get {α : Type} (q : PyQueue α) : Option (α × PyQueue α) :=
  match q.items with
  | [] => none
  | x :: rest => some (x, { q with items := rest })

/-- A sequence of puts, stopping at the first blocked one. -/
def PyQueue.putAll {α : Type} (q : PyQueue α) : List α → Option (PyQueue α)
  | [] => some q
  | x :: xs =>
    match q.put x with
    | none => none
    | some q2 => q2.putAll xs

/-- telemetry_bus = Queue(maxsize=1000) (satlen.py line 28). -/
def telemetry_bus : PyQueue Sample := ⟨1000, []⟩

/-- GHOST_TRACE_BUFFER = 50 (satyo.py line 18). -/
def GHOST_TRACE_BUFFER : Nat := 50

/-- The ghost vault: satyo.py keeps a dict from node name to its list of
recent (latitude, longitude) pairs; a name never seen holds []. -/
def GhostVault : Type := String → List (ℚ × ℚ)

/-- The vault at process start (satyo.py line 34: empty dict). -/
def emptyVault : GhostVault := fun _ => []

/-- The ghost-trace update inside calculate_quantum_metrics (satyo.py lines
67-72): append the point at the tail of the sequence for the given name,
then pop index 0 (the head) when the length exceeds GHOST_TRACE_BUFFER. -/
def ghost_trace_append (vault : GhostVault) (name : String) (pt : ℚ × ℚ) :
    GhostVault :=
  let t := vault name ++ [pt]
  let t2 := if GHOST_TRACE_BUFFER < t.length then t.tail else t
  fun n => if n = name then t2 else vault n

/-- The dictionary built by IntelligenceKernel.calculate_quantum_metrics
(satyo.py lines 74-82); binary_payload records the struct.pack argument
tuple, whose doppler slot is the constant 0.0 of line 62. -/
structure SampleY where
  node : String
  id : Nat
  lat : ℚ
  lon : ℚ
  alt : ℚ
  binary_payload : PacketArgs
  ghost_points : Nat
  deriving Repr, DecidableEq

/-- IntelligenceKernel.calculate_quantum_metrics (satyo.py lines 50-82):
packs (satnum, lat, lon, alt, 0.0, time), updates the ghost vault when
ghost tracing is enabled, and returns the telemetry dictionary with the
updated vault. -/
def calculate_quantum_metrics (ghost_enabled : Bool) (vault : GhostVault)
    (o : TrackedObj) (e : EphData) (ts : ℚ) : SampleY × GhostVault :=
  let packet : PacketArgs := ⟨o.satnum, e.lat, e.lon, e.alt, 0, ts⟩
  let vault2 :=
    if ghost_enabled then ghost_trace_append vault o.name (e.lat, e.lon)
    else vault
  ({ node := o.name, id := o.satnum, lat := e.lat, lon := e.lon,
     alt := e.alt, binary_payload := packet,
     ghost_points := (vault2 o.name).length }, vault2)

/-- One pass of the for-loop of IntelligenceKernel.harvester_thread
(satyo.py lines 88-90): the ephemeris call inside
calculate_quantum_metrics may raise and no handler exists, so the failure
aborts the loop; the vault threads through the cycle. -/
def harvester_cycle (ghost_enabled : Bool)
    (ephF : TrackedObj → Except String EphData) (ts : ℚ) :
    List TrackedObj → GhostVault →
      List SampleY × GhostVault × Option String
  | [], v => ([], v, none)
  | o :: rest, v =>
    match ephF o with
    | .error msg => ([], v, some msg)
    | .ok e =>
      let (s, v2) := calculate_quantum_metrics ghost_enabled v o e ts
      let (ss, v3, err) := harvester_cycle ghost_enabled ephF ts rest v2
      (s :: ss, v3, err)

/-- SatelliteKernel.init (satlen.py lines 56-66): on success the swarm is
the first 100 catalog entries; on a catalog load failure it prints and
calls exit(), the Python builtin that raises SystemExit(None) and so
terminates the process with exit code 0.  The error value is the process
exit code. -/
def satlen_init (loadResult : Except String (List TrackedObj)) :
    Except Nat (List TrackedObj) :=
  match loadResult with
  | .ok sats => .ok (sats.take 100)
  | .error _ => .error 0

/-- IntelligenceKernel.boot_sequence (satyo.py lines 38-48): on success
active_swarm is the first 100 entries; on failure it calls sys.exit(1),
so the process exits with code 1. -/
def boot_sequence (loadResult : Except String (List TrackedObj)) :
    Except Nat (List TrackedObj) :=
  match loadResult with
  | .ok sats => .ok (sats.take 100)
  | .error _ => .error 1

/-- The end-to-end scenario object of spec section 8. -/
def iss : TrackedObj := ⟨"ISS (ZARYA)", 25544⟩

/-- The mocked ephemeris answer of spec section 8: lat 12.42, lon 144.12,
alt 410.0 km, range 800.0 km, range rate 4.5 km/s. -/
def issEph : EphData := ⟨1242 / 100, 14412 / 100, 410, 800, 45 / 10⟩

/-! ## Layer 2 theorems -/

theorem storage_subsystem_run_sinks (shutdownAt : Nat) :
    ∀ (queue : List Sample) (out : SinkState),
      (storage_subsystem_run shutdownAt queue out).binary =
        out.binary ++ (queue.take shutdownAt).map Sample.binary_blob ∧
      (storage_subsystem_run shutdownAt queue out).jsonl =
        out.jsonl ++ queue.take shutdownAt ∧
      (storage_subsystem_run shutdownAt queue out).recovery =
        out.recovery ++
          ((queue.take shutdownAt).filter
            (fun s => decide (s.snr < 20))).map
            (fun s => (⟨s.node_id, s.snr⟩ : WarnLine)) := by
  induction shutdownAt with
  | zero => intro queue out; simp [storage_subsystem_run]
  | succ t ih =>
    intro queue out
    cases queue with
    | nil => simpa [storage_subsystem_run] using ih [] out
    | cons s rest =>
      have h := ih rest (storage_item out s)
      by_cases hs : s.snr < 20 <;>
        simp_all [storage_subsystem_run, storage_item, List.filter_cons,
          List.take_succ_cons]

/-- C1: the consumer loop checks the shutdown event before each pop and
exits as soon as it is set, so a sample accepted by the bus before the
shutdown signal but still queued when the signal is raised is never
persisted: the graceful-shutdown run below (event set at iteration 0, one
ISS sample queued) writes no binary record and no structured-log record at
all, contradicting drain completeness as specified. -/
theorem storage_shutdown_drops_queued_sample :
    (storage_subsystem_run 0 [handshake_sample (fun _ => 0) iss issEph 0]
        ⟨[], [], []⟩).binary = [] ∧
    (storage_subsystem_run 0 [handshake_sample (fun _ => 0) iss issEph 0]
        ⟨[], [], []⟩).jsonl = [] :=
  ⟨rfl, rfl⟩

theorem putAll_unbounded {α : Type} (xs : List α) :
    ∀ q : PyQueue α, q.maxsize = 0 →
      q.putAll xs = some ⟨0, q.items ++ xs⟩ := by
  induction xs with
  | nil => intro q h; cases q; simp_all [PyQueue.putAll]
  | cons x xs ih =>
    intro q h
    have hput : q.put x = some { q with items := q.items ++ [x] } := by
      simp [PyQueue.put, h]
    simp [PyQueue.putAll, hput, ih { q with items := q.items ++ [x] } h]

/-- telemetry_queue = Queue() (satyo.py line 35): no maxsize, unbounded. -/
def telemetry_queue : PyQueue SampleY := ⟨0, []⟩

/-- A concrete sample of the satyo pipeline, for closed evaluations. -/
def sampleY0 : SampleY :=
  (calculate_quantum_metrics false emptyVault iss issEph 0).1

/-- C2: in the satyo variant the bus is created as Queue() with no maxsize,
so it is unbounded: 1001 consecutive puts with no intervening get are all
accepted (none ever blocks) and the bus then holds 1001 items, exceeding
the capacity bound C = 1000 the claim states.  (The satlen variant does
create Queue(maxsize=1000), matching the claim; the spec itself flags the
unbounded path as a defect.) -/
theorem satyo_bus_exceeds_capacity :
    telemetry_queue.putAll (List.replicate 1001 sampleY0) =
      some ⟨0, List.replicate 1001 sampleY0⟩ ∧
    (List.replicate 1001 sampleY0).length = 1001 ∧ 1000 < 1001 := by
  have h := putAll_unbounded (List.replicate 1001 sampleY0) telemetry_queue rfl
  rw [show telemetry_queue.items = [] from rfl, List.nil_append] at h
  exact ⟨h, by rw [List.length_replicate], by omega⟩

/-- A bounded queue never grows past its maxsize: a put on a satlen-style
bus holding fewer than 1000 items keeps the count at most 1000, and a put
attempted on a full bus blocks (returns none). -/
theorem bounded_put_keeps_capacity (q : PyQueue Sample) (x : Sample)
    (hcap : q.maxsize = 1000) :
    (q.items.length < 1000 →
      ∃ q2, q.put x = some q2 ∧ q2.items.length ≤ 1000) ∧
    (q.items.length = 1000 → q.put x = none) := by
  constructor
  · intro hlt
    refine ⟨{ q with items := q.items ++ [x] }, ?_, ?_⟩
    · simp [PyQueue.put, hcap]; omega
    · simp; omega
  · intro heq
    simp [PyQueue.put, hcap, heq]

/-- C5: over any run of the storage consumer, the anomaly/recovery log
holds exactly one warning line for each processed sample whose SNR is
strictly below the degraded threshold 20, in order, and each line names the
node identifier and its SNR; samples with SNR at least 20 contribute no
line. -/
theorem anomaly_log_iff_low_snr (shutdownAt : Nat) (queue : List Sample) :
    (storage_subsystem_run shutdownAt queue ⟨[], [], []⟩).recovery =
      ((queue.take shutdownAt).filter (fun s => decide (s.snr < 20))).map
        (fun s => (⟨s.node_id, s.snr⟩ : WarnLine)) := by
  simpa using (storage_subsystem_run_sinks shutdownAt queue ⟨[], [], []⟩).2.2

/-- C6: provided every trace respects the bound, an append keeps every
trace at no more than GHOST_TRACE_BUFFER = 50 points, and the updated
trace is the appended sequence with its oldest points dropped from the
head exactly when the append would exceed the bound. -/
theorem ghost_trace_bound_and_eviction (vault : GhostVault)
    (name n : String) (pt : ℚ × ℚ)
    (h : ∀ m, (vault m).length ≤ GHOST_TRACE_BUFFER) :
    ((ghost_trace_append vault name pt) n).length ≤ GHOST_TRACE_BUFFER ∧
    (ghost_trace_append vault name pt) name =
      (vault name ++ [pt]).drop
        ((vault name).length + 1 - GHOST_TRACE_BUFFER) := by
  have hname := h name
  have hself : (ghost_trace_append vault name pt) name =
      if GHOST_TRACE_BUFFER < (vault name).length + 1
      then (vault name ++ [pt]).tail else vault name ++ [pt] := by
    simp [ghost_trace_append, List.length_append]
  constructor
  · by_cases hn : n = name
    · subst hn
      rw [hself]
      by_cases h51 : GHOST_TRACE_BUFFER < (vault n).length + 1
      · rw [if_pos h51]
        have htl := List.length_tail (vault n ++ [pt])
        simp only [List.length_append, List.length_singleton] at htl
        omega
      · rw [if_neg h51]
        simp only [List.length_append, List.length_singleton]
        simp only [GHOST_TRACE_BUFFER] at h51 ⊢
        omega
    · simpa [ghost_trace_append, hn] using h n
  · rw [hself]
    by_cases h51 : GHOST_TRACE_BUFFER < (vault name).length + 1
    · rw [if_pos h51]
      have h50 : (vault name).length = 50 := by
        simp only [GHOST_TRACE_BUFFER] at h51 hname; omega
      rw [h50]
      norm_num [List.drop_one, GHOST_TRACE_BUFFER]
    · rw [if_neg h51]
      have h0 : (vault name).length + 1 - GHOST_TRACE_BUFFER = 0 := by
        simp only [GHOST_TRACE_BUFFER] at h51 ⊢; omega
      rw [h0, List.drop_zero]

/-- Closed instance of the ghost-trace law: the first ISS point appended
to the empty vault. -/
theorem ghost_trace_bound_and_eviction_witness :
    ((ghost_trace_append emptyVault "ISS (ZARYA)" (1242 / 100, 14412 / 100))
        "ISS (ZARYA)").length ≤ GHOST_TRACE_BUFFER ∧
    (ghost_trace_append emptyVault "ISS (ZARYA)" (1242 / 100, 14412 / 100))
        "ISS (ZARYA)" =
      (emptyVault "ISS (ZARYA)" ++ [(1242 / 100, 14412 / 100)]).drop
        ((emptyVault "ISS (ZARYA)").length + 1 - GHOST_TRACE_BUFFER) :=
  ghost_trace_bound_and_eviction emptyVault "ISS (ZARYA)" "ISS (ZARYA)"
    (1242 / 100, 14412 / 100) (fun m => by simp [emptyVault])

/-- KU_BAND_FREQ = 12.0e9 Hz (satyo.py line 23), declared but never used
by the satyo metric computation. -/
def KU_BAND_FREQ : ℚ := 12000000000

/-- C = 299792458 m/s (satyo.py line 24), declared but never used by the
satyo metric computation. -/
def C : ℚ := 299792458

/-- C7 counterexample: in the satyo variant the doppler slot of the packed
binary payload is the constant 0.0 placeholder, not the doppler formula:
for the ISS scenario (range rate 4.5 km/s, carrier 12.0 GHz) the packet
records 0 while (range_rate / c) * carrier is nonzero. -/
theorem satyo_packet_doppler_placeholder :
    ((calculate_quantum_metrics false emptyVault iss issEph 0).1).binary_payload.doppler
      = 0 ∧
    issEph.rangeRate / (C / 1000) * (KU_BAND_FREQ / 1000000000) ≠ 0 :=
  ⟨rfl, by norm_num [issEph, C, KU_BAND_FREQ]⟩

/-- C7 amended: in the satlen variant the doppler recorded in the telemetry
sample and in its binary packet equals
(range_rate / LIGHT_SPEED) * BASE_FREQ_GHZ with the configured carrier
12.450 GHz; the satyo variant packs the constant 0.0 placeholder into the
doppler slot of its binary payload instead. -/
theorem doppler_formula_amended (log10 : ℚ → ℚ)
    (ephF : TrackedObj → Except String EphData) (o : TrackedObj)
    (e : EphData) (ts : ℚ) (g : Bool) (v : GhostVault)
    (h : ephF o = .ok e) :
    perform_handshake log10 ephF o ts = .ok (handshake_sample log10 o e ts) ∧
    (handshake_sample log10 o e ts).doppler =
      e.rangeRate / LIGHT_SPEED * BASE_FREQ_GHZ ∧
    (handshake_sample log10 o e ts).binary_blob.doppler =
      e.rangeRate / LIGHT_SPEED * BASE_FREQ_GHZ ∧
    ((calculate_quantum_metrics g v o e ts).1).binary_payload.doppler = 0 := by
  refine ⟨?_, rfl, rfl, rfl⟩
  simp [perform_handshake, h]

/-- Closed instance of the amended doppler law at the ISS scenario. -/
theorem doppler_formula_amended_witness :
    perform_handshake (fun _ => 0) (fun _ => .ok issEph) iss 0 =
      .ok (handshake_sample (fun _ => 0) iss issEph 0) ∧
    (handshake_sample (fun _ => 0) iss issEph 0).doppler =
      issEph.rangeRate / LIGHT_SPEED * BASE_FREQ_GHZ ∧
    (handshake_sample (fun _ => 0) iss issEph 0).binary_blob.doppler =
      issEph.rangeRate / LIGHT_SPEED * BASE_FREQ_GHZ ∧
    ((calculate_quantum_metrics false emptyVault iss issEph
        0).1).binary_payload.doppler = 0 :=
  doppler_formula_amended (fun _ => 0) (fun _ => .ok issEph) iss issEph 0
    false emptyVault rfl

/-- A catalog entry whose ephemeris computation succeeds. -/
def objA : TrackedObj := ⟨"NODE-A", 1⟩

/-- A catalog entry whose ephemeris computation raises. -/
def objB : TrackedObj := ⟨"NODE-B", 2⟩

/-- A catalog entry after the failing one in the same cycle. -/
def objC : TrackedObj := ⟨"NODE-C", 3⟩

/-- An ephemeris collaborator that fails exactly on satnum 2. -/
def ephFail : TrackedObj → Except String EphData :=
  fun o => if o.satnum = 2 then .error "ephemeris failure" else .ok issEph

/-- C8 counterexample: the tracking loop has no exception handler, so when
the ephemeris computation fails for the second of three objects the cycle
stops there: only one sample is produced (objC is skipped even though its
own computation would succeed) and the error escapes the loop, so the
failure is not isolated to the one object. -/
theorem ephemeris_failure_aborts_cycle :
    (tracking_cycle (fun _ => 0) ephFail 0 [objA, objB, objC]).2 =
      some "ephemeris failure" ∧
    (tracking_cycle (fun _ => 0) ephFail 0 [objA, objB, objC]).1.length = 1 :=
  ⟨rfl, rfl⟩

/-- C8 amended: when the ephemeris computation fails for one object, the
exception propagates uncaught: the samples already pushed in that cycle are
exactly the handshakes of the objects before the failing one (so the
failing object and every later object of the cycle go unsampled), and the
error escapes the loop, terminating the Harvester. -/
theorem ephemeris_failure_propagates (log10 : ℚ → ℚ)
    (ephF : TrackedObj → Except String EphData) (eph : TrackedObj → EphData)
    (ts : ℚ) (msg : String) (pre post : List TrackedObj) (b : TrackedObj)
    (hpre : ∀ o ∈ pre, ephF o = .ok (eph o))
    (hb : ephF b = .error msg) :
    (tracking_cycle log10 ephF ts (pre ++ b :: post)).1 =
      pre.map (fun o => handshake_sample log10 o (eph o) ts) ∧
    (tracking_cycle log10 ephF ts (pre ++ b :: post)).2 = some msg := by
  induction pre with
  | nil => simp [tracking_cycle, perform_handshake, hb]
  | cons o rest ih =>
    have he := hpre o (by simp)
    have ih2 := ih (fun x hx => hpre x (by simp [hx]))
    simp [tracking_cycle, perform_handshake, he, ih2.1, ih2.2]

/-- Closed instance of the amended failure-propagation law: of the cycle
over [objA, objB, objC] with objB failing, the pushed samples are exactly
the handshake of objA. -/
theorem ephemeris_failure_propagates_witness :
    (tracking_cycle (fun _ => 0) ephFail 0 ([objA] ++ objB :: [objC])).1 =
      [objA].map (fun o => handshake_sample (fun _ => 0) o issEph 0) ∧
    (tracking_cycle (fun _ => 0) ephFail 0 ([objA] ++ objB :: [objC])).2 =
      some "ephemeris failure" :=
  ephemeris_failure_propagates (fun _ => 0) ephFail (fun _ => issEph) 0
    "ephemeris failure" [objA] [objC] objB
    (fun o ho => by
      rw [List.mem_singleton.mp ho]
      simp [ephFail, objA])
    rfl

/-- C9 counterexample: on a catalog load failure the satlen variant calls
the builtin exit() with no argument, which raises SystemExit(None) and
terminates the process with exit code 0, not a non-zero code. -/
theorem satlen_catalog_failure_exit_code_zero :
    satlen_init (.error "Link Failure") = .error 0 :=
  rfl

/-- C9 amended: if the startup catalog load fails, both variants terminate
before entering the sampling loop (no kernel state is produced); the satyo
variant exits with code 1 as claimed, but the satlen variant exits with
code 0. -/
theorem catalog_failure_terminates (msg : String) :
    satlen_init (.error msg) = .error 0 ∧
    boot_sequence (.error msg) = .error 1 :=
  ⟨rfl, rfl⟩

theorem tracking_cycle_total (log10 : ℚ → ℚ) (eph : TrackedObj → EphData)
    (ts : ℚ) :
    ∀ objs : List TrackedObj,
      (tracking_cycle log10 (fun o => .ok (eph o)) ts objs).1 =
        objs.map (fun o => handshake_sample log10 o (eph o) ts) := by
  intro objs
  induction objs with
  | nil => rfl
  | cons o rest ih => simp [tracking_cycle, perform_handshake, ih]

theorem harvester_cycle_ids (g : Bool) (eph : TrackedObj → EphData)
    (ts : ℚ) :
    ∀ (objs : List TrackedObj) (v : GhostVault),
      ((harvester_cycle g (fun o => .ok (eph o)) ts objs v).1).map
          SampleY.id = objs.map TrackedObj.satnum := by
  intro objs
  induction objs with
  | nil => intro v; rfl
  | cons o rest ih =>
    intro v
    simp [harvester_cycle, calculate_quantum_metrics, ih]

/-- C10: both variants keep only the first 100 catalog entries as the
swarm, whatever the catalog size; a cycle over that swarm emits exactly
one sample per swarm member (in satlen, literally the handshake of each of
the first 100 entries; in satyo, the emitted identifiers are exactly the
satnums of the first 100 entries), so an object beyond position 100 is
never sampled and never reaches any telemetry output. -/
theorem swarm_limited_to_first_hundred (catalog : List TrackedObj)
    (log10 : ℚ → ℚ) (eph : TrackedObj → EphData) (ts : ℚ) (g : Bool)
    (v : GhostVault) :
    satlen_init (.ok catalog) = .ok (catalog.take 100) ∧
    boot_sequence (.ok catalog) = .ok (catalog.take 100) ∧
    (catalog.take 100).length ≤ 100 ∧
    (tracking_cycle log10 (fun o => .ok (eph o)) ts (catalog.take 100)).1 =
      (catalog.take 100).map
        (fun o => handshake_sample log10 o (eph o) ts) ∧
    ((harvester_cycle g (fun o => .ok (eph o)) ts (catalog.take 100)
        v).1).map SampleY.id = (catalog.take 100).map TrackedObj.satnum := by
  refine ⟨rfl, rfl, ?_,
    tracking_cycle_total log10 eph ts (catalog.take 100),
    harvester_cycle_ids g eph ts (catalog.take 100) v⟩
  rw [List.length_take]
  exact min_le_left _ _

end SatPipeline
